import Mathlib

/-!
Verification development for the verifiable-credential command layer and the
linked-data proof subsystem of this repository.  Definitions in the first part
are shallow embeddings of functions of
pkg/controller/command/verifiable/command.go; definitions marked
"Modelled from the spec:" embed components whose code lives outside the
sampled sources (the doc/verifiable and doc/signature packages) and follow the
specification text.
-/

/-- Error values produced by the verifiable command operations (command.go). -/
inductive CmdError where
  | noMatchingVerificationMethod
  | noPublicKeyFound
  | failedDefaultVM (inner : CmdError)
  | wrongId (creator : String)
  | keyNotFound (kid : String)
  | unsupportedSignatureType (sigType : String)
deriving Repr, DecidableEq

/-- Public key entry of a DID document (did.Doc.PublicKey element): identifier and key type. -/
structure PublicKey where
  id : String
  typ : String
deriving Repr, DecidableEq

/-- Verification method of a DID document, wrapping a public key (did.VerificationMethod). -/
structure VerificationMethod where
  publicKey : PublicKey
deriving Repr, DecidableEq

/-- DID document: id, flat public-key list and the authentication relationship list
(the part of did.Doc used by command.go). -/
structure DidDoc where
  id : String
  publicKey : List PublicKey
  authentication : List VerificationMethod
deriving Repr, DecidableEq

/-- ProofOptions of command.go: caller-supplied signing options.  proofPurpose is the
private field set by prepareOpts. -/
structure ProofOptions where
  verificationMethod : String := ""
  signatureType : String := ""
  created : Option String := none
  domain : String := ""
  challenge : String := ""
  proofPurpose : String := ""
deriving Repr, DecidableEq

instance : Inhabited ProofOptions := ⟨{ verificationMethod := "" }⟩

/-- Suite-name constant Ed25519Signature2018 (command.go). -/
def Ed25519Signature2018 : String := "Ed25519Signature2018"

/-- Suite-name constant JsonWebSignature2020 (command.go). -/
def JSONWebSignature2020 : String := "JsonWebSignature2020"

/-- Key-type constant Ed25519VerificationKey (command.go). -/
def Ed25519VerificationKey : String := "Ed25519VerificationKey"

/-- Model of Go strings.HasPrefix over the character sequence of a string. -/
def strStartsWith (s pre : String) : Bool := pre.data.isPrefixOf s.data

/-- Helper for the model of Go strings.Split with a one-character separator: walk the
character list, cutting at every separator occurrence. -/
def splitOnCharAux (sep : Char) : List Char → List Char → List (List Char)
  | [], acc => [acc.reverse]
  | c :: rest, acc =>
    if c = sep then acc.reverse :: splitOnCharAux sep rest []
    else splitOnCharAux sep rest (c :: acc)

/-- Model of Go strings.Split for a one-character separator (the only use in command.go is
splitting on "#"). -/
def splitOnChar (s : String) (sep : Char) : List String :=
  (splitOnCharAux sep s.data []).map (fun cs => String.mk cs)

/-- Embedding of isDID (command.go line 791): a string is a DID when it starts with "did:". -/
def isDID (str : String) : Bool := strStartsWith str "did:"

/-- Embedding of getDefaultVerificationMethod (command.go lines 761-789): prefer the first
flat public key whose type has the Ed25519VerificationKey text at its start (the loop leaves
the sentinel "" when none is found or when the found key id is itself ""), else the first
key; qualify a non-DID key id with the document id; with no flat keys fall back to the first
authentication method; otherwise fail. -/
def getDefaultVerificationMethod (didDoc : DidDoc) : Except CmdError String :=
  match didDoc.publicKey, didDoc.authentication with
  | k0 :: _, _ =>
    let publicKeyID :=
      match didDoc.publicKey.find? (fun k => strStartsWith k.typ Ed25519VerificationKey) with
      | some k => k.id
      | none => ""
    let publicKeyID := if publicKeyID = "" then k0.id else publicKeyID
    if isDID publicKeyID then .ok publicKeyID else .ok (didDoc.id ++ publicKeyID)
  | [], a0 :: _ => .ok a0.publicKey.id
  | [], [] => .error .noPublicKeyFound

/-- Embedding of the scan loop inside prepareOpts (command.go lines 724-738).  vm0 is the
current opts.VerificationMethod, vmMatched the running flag; a hit on a provided method or
the default assignment of the first listed method stops the loop (break), a miss on a
provided method continues.  Returns the final (VerificationMethod, vmMatched) pair. -/
def scanAuthVMs (vm0 : String) (vmMatched : Bool) : List VerificationMethod → String × Bool
  | [] => (vm0, vmMatched)
  | vm :: rest =>
    if vm0 ≠ "" then
      if vm0 = vm.publicKey.id then (vm0, true)
      else scanAuthVMs vm0 vmMatched rest
    else (vm.publicKey.id, vmMatched)

/-- Embedding of prepareOpts (command.go lines 713-758): default the options, force the
authentication proof purpose, scan the authentication verification methods, fail when a
provided method matched nothing, and fall back to the default verification method when the
resolved method is still empty. -/
def prepareOpts (optsIn : Option ProofOptions) (didDoc : DidDoc) : Except CmdError ProofOptions :=
  let opts0 := match optsIn with
    | none => ({ verificationMethod := "" } : ProofOptions)
    | some o => o
  let opts1 : ProofOptions := { opts0 with proofPurpose := "authentication" }
  let scanned :=
    scanAuthVMs opts1.verificationMethod (opts1.verificationMethod = "") didDoc.authentication
  let opts2 : ProofOptions := { opts1 with verificationMethod := scanned.1 }
  if !scanned.2 then
    .error .noMatchingVerificationMethod
  else if opts2.verificationMethod = "" then
    match getDefaultVerificationMethod didDoc with
    | .ok defaultVM => .ok { opts2 with verificationMethod := defaultVM }
    | .error e => .error (.failedDefaultVM e)
  else
    .ok opts2

theorem scanAuthVMs_found (vm0 : String) (m : Bool) (l : List VerificationMethod)
    (h0 : vm0 ≠ "") (h : ∃ vm ∈ l, vm.publicKey.id = vm0) :
    scanAuthVMs vm0 m l = (vm0, true) := by
  induction l with
  | nil => rcases h with ⟨vm, hvm, _⟩; cases hvm
  | cons v rest ih =>
    rcases h with ⟨vm, hvm, hid⟩
    by_cases hveq : vm0 = v.publicKey.id
    · show (if vm0 ≠ "" then
          if vm0 = v.publicKey.id then (vm0, true) else scanAuthVMs vm0 m rest
        else (v.publicKey.id, m)) = (vm0, true)
      rw [if_pos h0, if_pos hveq]
    · show (if vm0 ≠ "" then
          if vm0 = v.publicKey.id then (vm0, true) else scanAuthVMs vm0 m rest
        else (v.publicKey.id, m)) = (vm0, true)
      rw [if_pos h0, if_neg hveq]
      rcases List.mem_cons.mp hvm with hv | hrest
      · exact absurd (hv ▸ hid).symm hveq
      · exact ih ⟨vm, hrest, hid⟩

theorem scanAuthVMs_not_found (vm0 : String) (m : Bool) (l : List VerificationMethod)
    (h0 : vm0 ≠ "") (h : ∀ vm ∈ l, vm.publicKey.id ≠ vm0) :
    scanAuthVMs vm0 m l = (vm0, m) := by
  induction l with
  | nil => rfl
  | cons v rest ih =>
    have hv : vm0 ≠ v.publicKey.id := fun he => (h v (List.mem_cons_self v rest)) he.symm
    show (if vm0 ≠ "" then
        if vm0 = v.publicKey.id then (vm0, true) else scanAuthVMs vm0 m rest
      else (v.publicKey.id, m)) = (vm0, m)
    rw [if_pos h0, if_neg hv]
    exact ih (fun vm hm => h vm (List.mem_cons_of_mem v hm))

/-- DID document refuting C1: its first-listed authentication method has the empty
public-key id, so resolution with no requested method falls through to the flat-key
default instead of returning the first-listed method id. -/
def c1Doc : DidDoc :=
  { id := "did:peer:1"
  , publicKey := [{ id := "key-1", typ := "Ed25519VerificationKey2018" }]
  , authentication :=
      [ { publicKey := { id := "", typ := "Ed25519VerificationKey2018" } }
      , { publicKey := { id := "did:peer:1#a2", typ := "Ed25519VerificationKey2018" } } ] }

set_option maxRecDepth 100000 in
/-- C1 counterexample: c1Doc has two authentication methods, yet resolving with an empty
requested method id returns the qualified flat-list default "did:peer:1key-1", not the
first-listed authentication method's public-key id "". -/
theorem prepareOpts_first_method_counterexample :
    c1Doc.authentication.map (fun vm => vm.publicKey.id) = ["", "did:peer:1#a2"]
    ∧ prepareOpts none c1Doc =
        .ok { verificationMethod := "did:peer:1key-1", proofPurpose := "authentication" }
    ∧ ("did:peer:1key-1" : String) ≠ "" := by
  refine ⟨rfl, ?_, by decide⟩
  rfl

/-- C1 (amended): verification-method resolution is deterministic.  For a document with at
least two authentication methods whose first-listed method has a non-empty public-key id,
resolving with an empty requested id returns the first-listed method's id; resolving with a
non-empty requested id equal to some listed method's id returns it unchanged; and resolving
with a non-empty requested id matching no listed method fails with the
no-matching-verification-method error. -/
theorem prepareOpts_resolution_deterministic (didDoc : DidDoc)
    (vm1 vm2 : VerificationMethod) (rest : List VerificationMethod)
    (hauth : didDoc.authentication = vm1 :: vm2 :: rest)
    (h1 : vm1.publicKey.id ≠ "") :
    (∃ o, prepareOpts none didDoc = .ok o ∧ o.verificationMethod = vm1.publicKey.id)
    ∧ (∀ req : ProofOptions, req.verificationMethod ≠ "" →
        (∃ vm ∈ didDoc.authentication, vm.publicKey.id = req.verificationMethod) →
        ∃ o, prepareOpts (some req) didDoc = .ok o
          ∧ o.verificationMethod = req.verificationMethod)
    ∧ (∀ req : ProofOptions, req.verificationMethod ≠ "" →
        (∀ vm ∈ didDoc.authentication, vm.publicKey.id ≠ req.verificationMethod) →
        prepareOpts (some req) didDoc = .error .noMatchingVerificationMethod) := by
  refine ⟨?_, ?_, ?_⟩
  · refine ⟨{ verificationMethod := vm1.publicKey.id, proofPurpose := "authentication" },
      ?_, rfl⟩
    simp only [prepareOpts, hauth, scanAuthVMs]
    simp [h1]
  · intro req hreq hmem
    have hscan := scanAuthVMs_found req.verificationMethod
      (decide (req.verificationMethod = "")) didDoc.authentication hreq hmem
    refine ⟨{ req with proofPurpose := "authentication" }, ?_, rfl⟩
    simp only [prepareOpts, hscan]
    simp [hreq]
  · intro req hreq hnone
    have hscan := scanAuthVMs_not_found req.verificationMethod
      (decide (req.verificationMethod = "")) didDoc.authentication hreq hnone
    simp only [prepareOpts, hscan]
    simp [hreq]

/-- Witness document for the amended C1 theorem: two authentication methods with
non-empty ids. -/
def c1WitnessDoc : DidDoc :=
  { id := "did:peer:w1"
  , publicKey := []
  , authentication :=
      [ { publicKey := { id := "did:peer:w1#a1", typ := "Ed25519VerificationKey2018" } }
      , { publicKey := { id := "did:peer:w1#a2", typ := "Ed25519VerificationKey2018" } } ] }

/-- Witness for the amended C1 theorem at c1WitnessDoc: empty request resolves to the first
method, requesting the second method returns it, and requesting an absent id fails. -/
theorem prepareOpts_resolution_deterministic_witness :
    (∃ o, prepareOpts none c1WitnessDoc = .ok o ∧ o.verificationMethod = "did:peer:w1#a1")
    ∧ (∃ o, prepareOpts (some { verificationMethod := "did:peer:w1#a2" }) c1WitnessDoc = .ok o
        ∧ o.verificationMethod = "did:peer:w1#a2")
    ∧ prepareOpts (some { verificationMethod := "did:peer:w1#zzz" }) c1WitnessDoc
        = .error .noMatchingVerificationMethod := by
  have h := prepareOpts_resolution_deterministic c1WitnessDoc
    { publicKey := { id := "did:peer:w1#a1", typ := "Ed25519VerificationKey2018" } }
    { publicKey := { id := "did:peer:w1#a2", typ := "Ed25519VerificationKey2018" } }
    [] rfl (by decide)
  refine ⟨h.1, ?_, ?_⟩
  · exact h.2.1 { verificationMethod := "did:peer:w1#a2" } (by decide)
      ⟨{ publicKey := { id := "did:peer:w1#a2", typ := "Ed25519VerificationKey2018" } },
        by simp [c1WitnessDoc], rfl⟩
  · exact h.2.2 { verificationMethod := "did:peer:w1#zzz" } (by decide) (by decide)

/-- Qualification step of the default verification method: a key id that is not itself a
DID is qualified with the document id (command.go lines 779-783). -/
def qualifyKeyID (docID keyID : String) : String :=
  if isDID keyID then keyID else docID ++ keyID

/-- DID document refuting C2: the first key whose type has an Ed25519 verification-key
variant has the empty id, so the code falls back to the first listed key instead of
qualifying the Ed25519 key's (empty) id. -/
def c2Doc : DidDoc :=
  { id := "did:peer:2"
  , publicKey :=
      [ { id := "k0", typ := "RsaVerificationKey2018" }
      , { id := "", typ := "Ed25519VerificationKey2018" } ]
  , authentication := [] }

/-- C2 counterexample: in c2Doc the first Ed25519-variant key exists (with empty id), and
the claim would return "did:peer:2" (document id ++ empty key id), but the code returns
"did:peer:2k0" built from the first key in the list. -/
theorem getDefaultVerificationMethod_counterexample :
    (c2Doc.publicKey.find? (fun k => strStartsWith k.typ Ed25519VerificationKey)).map
        PublicKey.id = some ""
    ∧ getDefaultVerificationMethod c2Doc = .ok "did:peer:2k0"
    ∧ ("did:peer:2k0" : String) ≠ "did:peer:2" := by
  refine ⟨rfl, rfl, by decide⟩

/-- C2 (amended): default verification-method fallback.  With a non-empty flat public-key
list, the default method is the first Ed25519-variant key when that key's id is non-empty
(an Ed25519 key with empty id falls back to the first key in the list), else the first key,
qualified with the document id when the chosen id is not itself a DID; with an empty flat
list and a non-empty authentication list, the first authentication method's public-key id
is returned; with both empty, resolution fails with the no-public-key-found error. -/
theorem getDefaultVerificationMethod_spec (didDoc : DidDoc) :
    (∀ k0 ks, didDoc.publicKey = k0 :: ks →
      (∀ ke, didDoc.publicKey.find? (fun k => strStartsWith k.typ Ed25519VerificationKey)
          = some ke → ke.id ≠ "") →
      getDefaultVerificationMethod didDoc =
        .ok (qualifyKeyID didDoc.id
          (match didDoc.publicKey.find?
              (fun k => strStartsWith k.typ Ed25519VerificationKey) with
           | some ke => ke.id
           | none => k0.id)))
    ∧ (∀ a0 arest, didDoc.publicKey = [] → didDoc.authentication = a0 :: arest →
        getDefaultVerificationMethod didDoc = .ok a0.publicKey.id)
    ∧ (didDoc.publicKey = [] → didDoc.authentication = [] →
        getDefaultVerificationMethod didDoc = .error .noPublicKeyFound) := by
  refine ⟨?_, ?_, ?_⟩
  · intro k0 ks hpk hfind
    cases hf : didDoc.publicKey.find?
        (fun k => strStartsWith k.typ Ed25519VerificationKey) with
    | some ke =>
      have hne : ke.id ≠ "" := hfind ke hf
      simp only [getDefaultVerificationMethod, hpk]
      rw [hpk] at hf
      simp only [hf, qualifyKeyID]
      rw [if_neg hne]
      by_cases hd : isDID ke.id = true
      · simp [hd]
      · simp [hd]
    | none =>
      simp only [getDefaultVerificationMethod, hpk]
      rw [hpk] at hf
      simp only [hf, qualifyKeyID]
      by_cases hd : isDID k0.id = true
      · simp [hd]
      · simp [hd]
  · intro a0 arest hpk hauth
    simp [getDefaultVerificationMethod, hpk, hauth]
  · intro hpk hauth
    simp [getDefaultVerificationMethod, hpk, hauth]

/-- Witness document for the amended C2 theorem: one non-Ed25519 key followed by an
Ed25519 key, both with non-empty ids, and no authentication entry. -/
def c2WitnessDoc : DidDoc :=
  { id := "did:peer:w2"
  , publicKey :=
      [ { id := "k0", typ := "RsaVerificationKey2018" }
      , { id := "k1", typ := "Ed25519VerificationKey2018" } ]
  , authentication := [] }

/-- Witness for the amended C2 theorem at c2WitnessDoc: the Ed25519 key "k1" is chosen and
qualified with the document id. -/
theorem getDefaultVerificationMethod_spec_witness :
    getDefaultVerificationMethod c2WitnessDoc = .ok "did:peer:w2k1" :=
  (getDefaultVerificationMethod_spec c2WitnessDoc).1
    { id := "k0", typ := "RsaVerificationKey2018" }
    [{ id := "k1", typ := "Ed25519VerificationKey2018" }] rfl
    (by
      intro ke hke
      have h1 : c2WitnessDoc.publicKey.find?
          (fun k => strStartsWith k.typ Ed25519VerificationKey)
          = some { id := "k1", typ := "Ed25519VerificationKey2018" } := rfl
      rw [h1] at hke
      injection hke with hke
      subst hke
      decide)

/-- C8: ProofOptions frame property of prepareOpts.  When the caller supplied a non-empty
verification method, the result either keeps the options exactly as supplied with only the
proof purpose set to authentication (verification method, created, domain and challenge
untouched), or, when no listed authentication method matches, fails without producing
options. -/
theorem prepareOpts_frame (didDoc : DidDoc) (opts : ProofOptions)
    (h : opts.verificationMethod ≠ "") :
    ((∃ vm ∈ didDoc.authentication, vm.publicKey.id = opts.verificationMethod) →
      prepareOpts (some opts) didDoc = .ok { opts with proofPurpose := "authentication" })
    ∧ ((∀ vm ∈ didDoc.authentication, vm.publicKey.id ≠ opts.verificationMethod) →
      prepareOpts (some opts) didDoc = .error .noMatchingVerificationMethod) := by
  constructor
  · intro hmem
    have hscan := scanAuthVMs_found opts.verificationMethod
      (decide (opts.verificationMethod = "")) didDoc.authentication h hmem
    simp only [prepareOpts, hscan]
    simp [h]
  · intro hnone
    have hscan := scanAuthVMs_not_found opts.verificationMethod
      (decide (opts.verificationMethod = "")) didDoc.authentication h hnone
    simp only [prepareOpts, hscan]
    simp [h]

/-- Witness options for the C8 frame theorem, with every caller field populated. -/
def c8Opts : ProofOptions :=
  { verificationMethod := "did:peer:w8#a1"
  , signatureType := "Ed25519Signature2018"
  , created := some "2020-01-01T19:23:24Z"
  , domain := "example.com"
  , challenge := "some-challenge"
  , proofPurpose := "" }

/-- Witness document for the C8 frame theorem. -/
def c8Doc : DidDoc :=
  { id := "did:peer:w8"
  , publicKey := []
  , authentication :=
      [ { publicKey := { id := "did:peer:w8#a1", typ := "Ed25519VerificationKey2018" } } ] }

/-- Witness for the C8 frame theorem at c8Doc/c8Opts: the supplied options come back with
only the proof purpose filled in; requesting an absent method fails. -/
theorem prepareOpts_frame_witness :
    prepareOpts (some c8Opts) c8Doc = .ok { c8Opts with proofPurpose := "authentication" }
    ∧ prepareOpts (some { c8Opts with verificationMethod := "did:peer:w8#zz" }) c8Doc
        = .error .noMatchingVerificationMethod := by
  constructor
  · exact (prepareOpts_frame c8Doc c8Opts (by decide)).1
      ⟨{ publicKey := { id := "did:peer:w8#a1", typ := "Ed25519VerificationKey2018" } },
        by simp [c8Doc], rfl⟩
  · exact (prepareOpts_frame c8Doc { c8Opts with verificationMethod := "did:peer:w8#zz" }
      (by decide)).2 (by decide)

/-- Issuer reference of a credential: id plus the name custom field. -/
structure Issuer where
  id : String
  name : String
deriving Repr, DecidableEq

/-- Credential data model (§3 of the spec): contexts, id, types, subject id with the open
subject payload, issuer, and issuance/expiration timestamps as unix-style integers. -/
structure Credential where
  context : List String
  id : String
  types : List String
  subjectID : String
  subjectFields : List (String × String)
  issuer : Issuer
  issued : Int
  expired : Int
deriving Repr, DecidableEq

instance : Inhabited Credential :=
  ⟨{ context := [], id := "", types := [], subjectID := "", subjectFields := [],
     issuer := { id := "", name := "" }, issued := 0, expired := 0 }⟩

/-- Proof record (§3): the fixed keys of the open proof map that this development uses. -/
structure Proof where
  typ : String
  created : Option String
  proofPurpose : String
  verificationMethod : String
  jws : String
  proofValue : String
  nonce : String
deriving Repr, DecidableEq

/-- Modelled from the spec: §3 — a document's proof field holds nothing, a single Proof,
or an ordered list of Proofs. -/
inductive ProofField where
  | empty
  | single (p : Proof)
  | listP (ps : List Proof)
deriving Repr, DecidableEq

/-- Modelled from the spec: §3/§4.4 — appending a proof promotes a single-valued proof
field to a two-element list with stable insertion order. -/
def addProofTo : ProofField → Proof → ProofField
  | .empty, p => .single p
  | .single q, p => .listP [q, p]
  | .listP ps, p => .listP (ps ++ [p])

/-- Modelled from the spec: §4.4 — a document verifies only when every present proof
independently passes its own check; there is no any-one-suffices semantics. -/
def verifyAllProofs (pf : ProofField) (check : Proof → Bool) : Bool :=
  match pf with
  | .empty => true
  | .single p => check p
  | .listP ps => ps.all check

/-- Presentation document: holder, embedded credentials and the proof collection (the
part of verifiable.Presentation used by command.go). -/
structure Presentation where
  holder : String
  credentials : List Credential
  proofs : ProofField
deriving Repr, DecidableEq

/-- Modelled from the spec: vc.Presentation() (doc/verifiable, outside the sampled
sources) builds a fresh presentation embedding the credential; it assigns no holder. -/
def Credential.presentation (vc : Credential) : Presentation :=
  { holder := "", credentials := [vc], proofs := .empty }

/-- Modelled from the spec: vp.SetCredentials (doc/verifiable, outside the sampled
sources) replaces the embedded credential list. -/
def Presentation.setCredentials (vp : Presentation) (creds : List Credential) : Presentation :=
  { vp with credentials := creds }

/-- KMS signer of command.go: holds the key handle resolved from the key manager. -/
structure KmsSigner where
  keyHandle : String
deriving Repr, DecidableEq

/-- Key manager capability (kms.KeyManager.Get): key id to key handle, none when the key
is unknown. -/
structure KeyManager where
  get : String → Option String

/-- Crypto capability (§6 Signer): sign canonical data with a key handle. -/
structure AriesCrypto where
  sign : String → String → String

/-- Embedding of newKMSSigner (command.go lines 126-139): the creator must split on "#"
into exactly didID#keyID, and the key handle is looked up by the fragment after "#". -/
def newKMSSigner (keyManager : KeyManager) (creator : String) : Except CmdError KmsSigner :=
  match splitOnChar creator '#' with
  | [_, keyID] =>
    match keyManager.get keyID with
    | some keyHandler => .ok { keyHandle := keyHandler }
    | none => .error (.keyNotFound keyID)
  | _ => .error (.wrongId creator)

/-- Signature suite selected by the command's switch: the EdDSA linked-data suite or the
JSON web signature suite, each wrapping the KMS signer. -/
inductive SignatureSuite where
  | ed25519Sig2018 (s : KmsSigner)
  | jsonWebSig2020 (s : KmsSigner)
deriving Repr, DecidableEq

/-- Linked-data proof signing context assembled by addLinkedDataProof (command.go lines
639-648). -/
structure LinkedDataProofContext where
  verificationMethod : String
  signatureType : String
  suite : SignatureSuite
  created : Option String
  domain : String
  challenge : String
  purpose : String
deriving Repr, DecidableEq

/-- Modelled from the spec: §4.4 addProof — vp.AddLinkedDataProof (doc/verifiable, outside
the sampled sources) builds a Proof from the signing context (the purpose defaults to
assertionMethod when unset; JWS-representation suites store the signature under jws) and
appends it to the document's proof collection. -/
def Presentation.AddLinkedDataProof (vp : Presentation) (ctx : LinkedDataProofContext)
    (c : AriesCrypto) (canon : Presentation → String) : Presentation :=
  let signerHandle := match ctx.suite with
    | .ed25519Sig2018 s => s.keyHandle
    | .jsonWebSig2020 s => s.keyHandle
  let purpose := if ctx.purpose = "" then "assertionMethod" else ctx.purpose
  let p : Proof :=
    { typ := ctx.signatureType
    , created := ctx.created
    , proofPurpose := purpose
    , verificationMethod := ctx.verificationMethod
    , jws := c.sign signerHandle (canon vp)
    , proofValue := ""
    , nonce := "" }
  { vp with proofs := addProofTo vp.proofs p }

/-- Embedding of the command's addLinkedDataProof (command.go lines 621-656): construct
the KMS signer from the verification method, select the signature suite by name (an
unknown name is a hard error), and delegate to the presentation's proof-adding method. -/
def addLinkedDataProof (km : KeyManager) (c : AriesCrypto) (canon : Presentation → String)
    (vp : Presentation) (opts : ProofOptions) : Except CmdError Presentation :=
  match newKMSSigner km opts.verificationMethod with
  | .error e => .error e
  | .ok s =>
    if opts.signatureType = Ed25519Signature2018 then
      .ok (vp.AddLinkedDataProof
        { verificationMethod := opts.verificationMethod
        , signatureType := opts.signatureType
        , suite := .ed25519Sig2018 s
        , created := opts.created
        , domain := opts.domain
        , challenge := opts.challenge
        , purpose := opts.proofPurpose } c canon)
    else if opts.signatureType = JSONWebSignature2020 then
      .ok (vp.AddLinkedDataProof
        { verificationMethod := opts.verificationMethod
        , signatureType := opts.signatureType
        , suite := .jsonWebSig2020 s
        , created := opts.created
        , domain := opts.domain
        , challenge := opts.challenge
        , purpose := opts.proofPurpose } c canon)
    else
      .error (.unsupportedSignatureType opts.signatureType)

/-- C9: the resolved verification method must split on "#" into exactly didID#keyID.  A
creator without exactly one "#" makes the whole proof-adding operation fail with the
wrong-id error before any suite is selected or proof is built (even when the suite name is
also unsupported), and for a well-formed creator the key handle is looked up in the key
manager by the fragment after "#" alone. -/
theorem newKMSSigner_creator_parts (km : KeyManager) (c : AriesCrypto)
    (canon : Presentation → String) (vp : Presentation) (opts : ProofOptions)
    (hbad : (splitOnChar opts.verificationMethod '#').length ≠ 2) :
    addLinkedDataProof km c canon vp opts = .error (.wrongId opts.verificationMethod)
    ∧ ∀ creator didPart keyID, splitOnChar creator '#' = [didPart, keyID] →
        newKMSSigner km creator =
          (match km.get keyID with
           | some h => .ok { keyHandle := h }
           | none => .error (.keyNotFound keyID)) := by
  constructor
  · have hwrong : newKMSSigner km opts.verificationMethod
        = .error (.wrongId opts.verificationMethod) := by
      unfold newKMSSigner
      rcases hsp : splitOnChar opts.verificationMethod '#' with _ | ⟨a, _ | ⟨b, _ | ⟨d, t⟩⟩⟩
      · rfl
      · rfl
      · exact absurd (by rw [hsp] ; rfl) hbad
      · rfl
    simp [addLinkedDataProof, hwrong]
  · intro creator didPart keyID hsp
    simp [newKMSSigner, hsp]

/-- Witness key manager for the C9 theorem: only "key1" is present. -/
def c9Km : KeyManager := { get := fun k => if k = "key1" then some "handle1" else none }

/-- Witness crypto capability used by the command-layer witnesses. -/
def wCrypto : AriesCrypto := { sign := fun keyHandle data => keyHandle ++ "." ++ data }

/-- Witness canonicalizer used by the command-layer witnesses. -/
def wCanon : Presentation → String := fun _ => "m"

/-- Witness presentation used by the command-layer witnesses. -/
def wVp : Presentation := { holder := "holder-0", credentials := [], proofs := .empty }

/-- Witness options for the C9 theorem: a verification method without "#". -/
def c9Opts : ProofOptions :=
  { verificationMethod := "no-hash-method", signatureType := "Ed25519Signature2018" }

/-- Witness for the C9 theorem: the hash-less creator fails with the wrong-id error, and a
well-formed creator resolves its handle by the key fragment. -/
theorem newKMSSigner_creator_parts_witness :
    addLinkedDataProof c9Km wCrypto wCanon wVp c9Opts = .error (.wrongId "no-hash-method")
    ∧ newKMSSigner c9Km "did:ex#key1" = .ok { keyHandle := "handle1" } := by
  have h := newKMSSigner_creator_parts c9Km wCrypto wCanon wVp c9Opts (by decide)
  exact ⟨h.1, h.2 "did:ex#key1" "did:ex" "key1" rfl⟩

/-- Options refuting C3: an unsupported suite name together with a verification method
that does not split as didID#keyID. -/
def c3Opts : ProofOptions :=
  { verificationMethod := "no-hash-method", signatureType := "NotASuite" }

/-- Key manager holding every key, for the C3 counterexample. -/
def c3Km : KeyManager := { get := fun _ => some "handle" }

/-- C3 counterexample: a proof-signing request with suite name "NotASuite" whose
verification method lacks "#" fails with the wrong-id error, not the unsupported-suite
error the claim promises for every request with an unknown suite name. -/
theorem addLinkedDataProof_unsupported_counterexample :
    c3Opts.signatureType = "NotASuite"
    ∧ addLinkedDataProof c3Km wCrypto wCanon wVp c3Opts
        = .error (.wrongId "no-hash-method")
    ∧ CmdError.wrongId "no-hash-method" ≠ CmdError.unsupportedSignatureType "NotASuite" := by
  refine ⟨rfl, rfl, by decide⟩

/-- C3 (amended): provided the resolved verification method splits as didID#keyID and its
key is present in the key manager, a signature-suite name that is neither
Ed25519Signature2018 nor JsonWebSignature2020 fails with the unsupported-signature-type
error; the error return carries no document, so the input document's proof collection is
exactly as before the call (a malformed verification method instead fails earlier with the
wrong-id error, likewise attaching nothing). -/
theorem addLinkedDataProof_unsupported_suite (km : KeyManager) (c : AriesCrypto)
    (canon : Presentation → String) (vp : Presentation) (opts : ProofOptions)
    (didPart keyID handle : String)
    (hsplit : splitOnChar opts.verificationMethod '#' = [didPart, keyID])
    (hget : km.get keyID = some handle)
    (h1 : opts.signatureType ≠ Ed25519Signature2018)
    (h2 : opts.signatureType ≠ JSONWebSignature2020) :
    addLinkedDataProof km c canon vp opts
      = .error (.unsupportedSignatureType opts.signatureType) := by
  simp [addLinkedDataProof, newKMSSigner, hsplit, hget, h1, h2]

/-- Witness options for the amended C3 theorem: well-formed method, unsupported suite. -/
def c3wOpts : ProofOptions :=
  { verificationMethod := "did:ex#key1", signatureType := "NotASuite" }

/-- Witness for the amended C3 theorem: with a resolvable key, suite "NotASuite" yields
exactly the unsupported-signature-type error. -/
theorem addLinkedDataProof_unsupported_suite_witness :
    addLinkedDataProof c9Km wCrypto wCanon wVp c3wOpts
      = .error (.unsupportedSignatureType "NotASuite") :=
  addLinkedDataProof_unsupported_suite c9Km wCrypto wCanon wVp c3wOpts
    "did:ex" "key1" "handle1" rfl rfl (by decide) (by decide)

/-- C5: multi-proof accumulation — adding a second proof to a singly-proved document
promotes the proof field to the two-element list holding the first-added proof before the
second, and the result verifies exactly when both proofs independently pass their own
check. -/
theorem multi_proof_accumulation (p1 p2 : Proof) (check : Proof → Bool) :
    addProofTo (.single p1) p2 = .listP [p1, p2]
    ∧ (verifyAllProofs (addProofTo (.single p1) p2) check = true
        ↔ (check p1 = true ∧ check p2 = true)) := by
  refine ⟨rfl, ?_⟩
  simp [verifyAllProofs, addProofTo]

/-- Embedding of createAndSignPresentation (command.go lines 573-598): build the
presentation from the first credential when none was supplied, set the holder
unconditionally, then sign.  (With no supplied presentation the Go code indexes
credentials[0]; the command layer guarantees a non-empty list, and the embedding takes the
head with a default for the impossible empty case.) -/
def createAndSignPresentation (km : KeyManager) (c : AriesCrypto)
    (canon : Presentation → String) (credentials : List Credential)
    (vpIn : Option Presentation) (holder : String) (opts : ProofOptions) :
    Except CmdError Presentation :=
  let vp := match vpIn with
    | some vp => vp
    | none => ((credentials.headD default).presentation).setCredentials credentials
  let vp := { vp with holder := holder }
  addLinkedDataProof km c canon vp opts

/-- Embedding of the call site in GeneratePresentation (command.go line 490): the holder
argument passed to createAndSignPresentation is the id of the resolved DID document. -/
def generatePresentationStep (km : KeyManager) (c : AriesCrypto)
    (canon : Presentation → String) (credentials : List Credential)
    (vpIn : Option Presentation) (didDoc : DidDoc) (opts : ProofOptions) :
    Except CmdError Presentation :=
  createAndSignPresentation km c canon credentials vpIn didDoc.id opts

/-- Embedding of createAndSignPresentationByID (command.go lines 600-619): resolve the
default verification method, build the presentation from the credential and sign; no
holder is assigned on this path. -/
def createAndSignPresentationByID (km : KeyManager) (c : AriesCrypto)
    (canon : Presentation → String) (vc : Credential) (didDoc : DidDoc)
    (signatureType : String) : Except CmdError Presentation :=
  match getDefaultVerificationMethod didDoc with
  | .error e => .error e
  | .ok pk =>
    addLinkedDataProof km c canon vc.presentation
      { verificationMethod := pk, signatureType := signatureType }

theorem addLinkedDataProof_holder (km : KeyManager) (c : AriesCrypto)
    (canon : Presentation → String) (vp : Presentation) (opts : ProofOptions)
    (vpOut : Presentation) (h : addLinkedDataProof km c canon vp opts = .ok vpOut) :
    vpOut.holder = vp.holder := by
  unfold addLinkedDataProof at h
  split at h
  · cases h
  · split at h
    · rw [← Except.ok.inj h]; rfl
    · split at h
      · rw [← Except.ok.inj h]; rfl
      · cases h

/-- C10: holder overwrite — every successfully generated presentation carries the resolved
DID document's id as its holder, replacing any holder already present in a caller-supplied
presentation; the generate-by-stored-credential-id path assigns no holder, leaving the
empty holder of the freshly built presentation, and only adds the proof. -/
theorem generatePresentation_holder_overwrite (km : KeyManager) (c : AriesCrypto)
    (canon : Presentation → String) :
    (∀ credentials vpIn didDoc opts vpOut,
      generatePresentationStep km c canon credentials vpIn didDoc opts = .ok vpOut →
      vpOut.holder = didDoc.id)
    ∧ (∀ vc didDoc signatureType vpOut,
      createAndSignPresentationByID km c canon vc didDoc signatureType = .ok vpOut →
      vpOut.holder = "") := by
  constructor
  · intro credentials vpIn didDoc opts vpOut h
    unfold generatePresentationStep createAndSignPresentation at h
    exact addLinkedDataProof_holder km c canon _ opts vpOut h
  · intro vc didDoc signatureType vpOut h
    unfold createAndSignPresentationByID at h
    cases hs : getDefaultVerificationMethod didDoc with
    | error e => rw [hs] at h; cases h
    | ok pk =>
      rw [hs] at h
      exact addLinkedDataProof_holder km c canon vc.presentation
        { verificationMethod := pk, signatureType := signatureType } vpOut h

/-- Witness credential for the C10 theorem. -/
def c10Cred : Credential :=
  { context := [], id := "vc1", types := [], subjectID := "", subjectFields := [],
    issuer := { id := "", name := "" }, issued := 0, expired := 0 }

/-- Witness DID document for the C10 generate path (only its id is used there). -/
def c10Doc : DidDoc := { id := "did:ex", publicKey := [], authentication := [] }

/-- Witness DID document for the C10 by-id path: its default verification method resolves
to "did:ex#key1". -/
def c10DocB : DidDoc :=
  { id := "did:ex"
  , publicKey := [{ id := "did:ex#key1", typ := "Ed25519VerificationKey2018" }]
  , authentication := [] }

/-- Witness options for the C10 generate path. -/
def c10Opts : ProofOptions :=
  { verificationMethod := "did:ex#key1", signatureType := "Ed25519Signature2018" }

/-- Witness caller-supplied presentation for the C10 generate path, with a holder already
present. -/
def c10Prior : Presentation :=
  { holder := "someone-else", credentials := [], proofs := .empty }

/-- Expected signed presentation of the C10 generate path. -/
def c10Expected : Presentation :=
  { holder := "did:ex"
  , credentials := []
  , proofs := .single
      { typ := "Ed25519Signature2018", created := none, proofPurpose := "assertionMethod",
        verificationMethod := "did:ex#key1", jws := "handle1.m", proofValue := "",
        nonce := "" } }

/-- Expected signed presentation of the C10 by-id path. -/
def c10ByIdExpected : Presentation :=
  { holder := ""
  , credentials := [c10Cred]
  , proofs := .single
      { typ := "Ed25519Signature2018", created := none, proofPurpose := "assertionMethod",
        verificationMethod := "did:ex#key1", jws := "handle1.m", proofValue := "",
        nonce := "" } }

/-- Witness for the C10 theorem: the generate path replaces the caller's holder
"someone-else" with the DID document id, and the by-id path leaves the holder unset. -/
theorem generatePresentation_holder_overwrite_witness :
    c10Expected.holder = "did:ex" ∧ c10ByIdExpected.holder = "" := by
  constructor
  · exact (generatePresentation_holder_overwrite c9Km wCrypto wCanon).1
      [] (some c10Prior) c10Doc c10Opts c10Expected rfl
  · exact (generatePresentation_holder_overwrite c9Km wCrypto wCanon).2
      c10Cred c10DocB "Ed25519Signature2018" c10ByIdExpected rfl

/-- Modelled from the spec: deterministic EdDSA key derivation — the public key is an
injective function of the private-key seed (the repository's ed25519 primitive is the Go
standard library, outside the sampled sources). -/
def pkOf (sk : Nat) : Nat := 2 * sk + 1

/-- Modelled from the spec: deterministic EdDSA signing — the signature is a pure function
of the private key and the canonical message, binding the signer's public key and the
message through an injective pairing. -/
def ed25519Sign (sk : Nat) (msg : Nat) : Nat := Nat.pair (pkOf sk) msg

/-- Modelled from the spec: EdDSA verification — a signature verifies against a public key
and message exactly when it is the deterministic signature of that message under the key
pair belonging to that public key. -/
def ed25519Verify (pk : Nat) (msg : Nat) (sig : Nat) : Bool := sig == Nat.pair pk msg

/-- Modelled from the spec: §8 concrete scenario — adding an Ed25519Signature2018
linked-data proof over fixed canonical document bytes with a fixed created timestamp; the
jws field holds the rendered deterministic signature. -/
def ed25519AddProof (docBytes : Nat) (created : String) (sk : Nat) (vm : String) : Proof :=
  { typ := "Ed25519Signature2018"
  , created := some created
  , proofPurpose := "assertionMethod"
  , verificationMethod := vm
  , jws := toString (ed25519Sign sk docBytes)
  , proofValue := ""
  , nonce := "" }

/-- C7: deterministic Ed25519 signing — any two proofs produced by invocations with the
same canonical document bytes, created timestamp and issuer key have byte-identical jws
fields; the signature verifies under the matching public key and fails under every other
public key. -/
theorem ed25519_deterministic_sign (docBytes : Nat) (created : String) (sk : Nat)
    (vm : String) (p1 p2 : Proof) (pkWrong : Nat)
    (h1 : p1 = ed25519AddProof docBytes created sk vm)
    (h2 : p2 = ed25519AddProof docBytes created sk vm)
    (hw : pkWrong ≠ pkOf sk) :
    p1.jws = p2.jws
    ∧ ed25519Verify (pkOf sk) docBytes (ed25519Sign sk docBytes) = true
    ∧ ed25519Verify pkWrong docBytes (ed25519Sign sk docBytes) = false := by
  refine ⟨by rw [h1, h2], by simp [ed25519Verify, ed25519Sign], ?_⟩
  have hne : ed25519Sign sk docBytes ≠ Nat.pair pkWrong docBytes := by
    intro hc
    have hc2 : Nat.pair (pkOf sk) docBytes = Nat.pair pkWrong docBytes := hc
    exact hw ((Nat.pair_eq_pair.mp hc2).1).symm
  simp only [ed25519Verify]
  exact beq_eq_false_iff_ne.mpr hne

/-- Witness for the C7 theorem at seed 3 (public key 7), wrong key 5, document bytes 11:
repeat signatures agree, the matching key verifies, the wrong key is rejected. -/
theorem ed25519_deterministic_sign_witness :
    (ed25519AddProof 11 "2010-01-01T19:23:24Z" 3 "did:example:123456#key1").jws
      = (ed25519AddProof 11 "2010-01-01T19:23:24Z" 3 "did:example:123456#key1").jws
    ∧ ed25519Verify (pkOf 3) 11 (ed25519Sign 3 11) = true
    ∧ ed25519Verify 5 11 (ed25519Sign 3 11) = false :=
  ed25519_deterministic_sign 11 "2010-01-01T19:23:24Z" 3 "did:example:123456#key1"
    (ed25519AddProof 11 "2010-01-01T19:23:24Z" 3 "did:example:123456#key1")
    (ed25519AddProof 11 "2010-01-01T19:23:24Z" 3 "did:example:123456#key1")
    5 rfl rfl (by decide)

/-- Modelled from the spec: §4.5 — the vc claim nested inside the JWT, holding the
credential body with the registered-claim-mapped fields (credential id, issuer id,
issuance and expiration dates) lifted out to iss/sub/nbf/exp/jti. -/
structure VCClaim where
  context : List String
  types : List String
  subjectID : String
  subjectFields : List (String × String)
  issuerName : String
deriving Repr, DecidableEq

/-- Modelled from the spec: §4.5 — JWT claims with the registered names iss, sub, jti,
nbf, exp, iat and the nested vc claim. -/
structure JWTClaims where
  iss : String
  sub : String
  jti : String
  nbf : Int
  exp : Int
  iat : Int
  vc : VCClaim
deriving Repr, DecidableEq

/-- Modelled from the spec: §4.5 toClaims — vc.JWTClaims(true) maps the issuer id to iss,
the subject id to sub, the credential id to jti, the issuance date to nbf and iat and the
expiration date to exp, and nests the remaining credential body under the vc claim. -/
def Credential.jwtClaims (vc : Credential) : JWTClaims :=
  { iss := vc.issuer.id
  , sub := vc.subjectID
  , jti := vc.id
  , nbf := vc.issued
  , exp := vc.expired
  , iat := vc.issued
  , vc :=
    { context := vc.context
    , types := vc.types
    , subjectID := vc.subjectID
    , subjectFields := vc.subjectFields
    , issuerName := vc.issuer.name } }

/-- Modelled from the spec: §4.5 parse — rebuild the credential by merging the vc claim
body with the registered claims, registered claims taking precedence (nbf always maps to
the issuance date, iss to the issuer id, jti to the credential id, sub to the subject id). -/
def credentialFromClaims (claims : JWTClaims) : Credential :=
  { context := claims.vc.context
  , id := claims.jti
  , types := claims.vc.types
  , subjectID := claims.sub
  , subjectFields := claims.vc.subjectFields
  , issuer := { id := claims.iss, name := claims.vc.issuerName }
  , issued := claims.nbf
  , expired := claims.exp }

/-- Encode a character list into a natural number via iterated pairing. -/
def encodeChars : List Char → Nat
  | [] => 0
  | ch :: rest => Nat.pair ch.toNat (encodeChars rest) + 1

/-- Encode a string into a natural number. -/
def encodeString (s : String) : Nat := encodeChars s.data

/-- Encode a string list into a natural number. -/
def encodeStringList : List String → Nat
  | [] => 0
  | s :: rest => Nat.pair (encodeString s) (encodeStringList rest) + 1

/-- Encode a key-value list into a natural number. -/
def encodePairList : List (String × String) → Nat
  | [] => 0
  | (k, v) :: rest =>
    Nat.pair (Nat.pair (encodeString k) (encodeString v)) (encodePairList rest) + 1

/-- Encode an integer into a natural number (magnitude and sign). -/
def encodeInt (i : Int) : Nat := Nat.pair i.natAbs (if i < 0 then 1 else 0)

/-- Modelled from the spec: §4.3 plain-JSON canonicalization — deterministic encoding of
the JWT claims into the content to be signed, rendered here as a natural number. -/
def encodeClaims (cl : JWTClaims) : Nat :=
  Nat.pair (encodeString cl.iss) (Nat.pair (encodeString cl.sub)
    (Nat.pair (encodeString cl.jti) (Nat.pair (encodeInt cl.nbf)
      (Nat.pair (encodeInt cl.exp) (Nat.pair (encodeInt cl.iat)
        (Nat.pair (encodeStringList cl.vc.context) (Nat.pair (encodeStringList cl.vc.types)
          (Nat.pair (encodeString cl.vc.subjectID)
            (Nat.pair (encodePairList cl.vc.subjectFields)
              (encodeString cl.vc.issuerName))))))))))

/-- Compact JWS produced by the JWT codec: the signed claims with their signature. -/
structure CompactJWS where
  payload : JWTClaims
  sig : Nat
deriving Repr, DecidableEq

/-- Modelled from the spec: §4.5 toJWS — canonicalize the claims and sign them with the
deterministic EdDSA signer. -/
def marshalJWS (claims : JWTClaims) (sk : Nat) : CompactJWS :=
  { payload := claims, sig := ed25519Sign sk (encodeClaims claims) }

/-- Modelled from the spec: §4.5 parse — verify the signature with the fetched public key,
then reconstruct the credential from the claims; a bad signature yields nothing. -/
def parseCredentialJWS (jws : CompactJWS) (pk : Nat) : Option Credential :=
  if ed25519Verify pk (encodeClaims jws.payload) jws.sig then
    some (credentialFromClaims jws.payload)
  else none

/-- Embedding struct of the examples: a credential wrapper with an auxiliary numeric
extension field (UniversityDegreeCredential.ReferenceNumber) that has no slot in the
claims mapping. -/
structure UniversityDegreeCredential where
  credential : Credential
  referenceNumber : Int
deriving Repr, DecidableEq

/-- JWT claims of the embedding struct: delegated to the embedded credential (the Go
method promotion); the reference number contributes nothing. -/
def UniversityDegreeCredential.jwtClaims (u : UniversityDegreeCredential) : JWTClaims :=
  u.credential.jwtClaims

/-- University-degree credential of the examples. -/
def exampleCredential : Credential :=
  { context := ["https://www.w3.org/2018/credentials/v1",
                "https://www.w3.org/2018/credentials/examples/v1"]
  , id := "http://example.edu/credentials/1872"
  , types := ["VerifiableCredential", "UniversityDegreeCredential"]
  , subjectID := "did:example:ebfeb1f712ebc6f1c276e12ec21"
  , subjectFields :=
      [ ("name", "Jayden Doe")
      , ("spouse", "did:example:c276e12ec21ebfeb1f712ebc6f1")
      , ("degreeType", "BachelorDegree")
      , ("degreeUniversity", "MIT") ]
  , issuer := { id := "did:example:76e12ec712ebc6f1c221ebfeb1f", name := "Example University" }
  , issued := 1262373804
  , expired := 1577906604 }

/-- Embedding wrapper with reference number 83294847 (ExampleCredential_embedding). -/
def udc1 : UniversityDegreeCredential :=
  { credential := exampleCredential, referenceNumber := 83294847 }

/-- Embedding wrapper with reference number 83294849 (the vcJSON value). -/
def udc2 : UniversityDegreeCredential :=
  { credential := exampleCredential, referenceNumber := 83294849 }

/-- C4: JWT claims round trip — parsing the compact JWS produced by signing any
credential's JWT claims reproduces every registered-claim-mapped field (issuer id, subject
id, issuance date via nbf, expiration date via exp, credential id via jti, contexts,
types, subject payload) unchanged; the auxiliary numeric extension field of the embedding
struct has no claims slot, so two wrappers differing only there produce identical claims
and the field is lost rather than reproduced. -/
theorem jwt_claims_round_trip :
    (∀ (vc : Credential) (sk : Nat),
      parseCredentialJWS (marshalJWS vc.jwtClaims sk) (pkOf sk) = some vc)
    ∧ udc1.jwtClaims = udc2.jwtClaims
    ∧ udc1.referenceNumber ≠ udc2.referenceNumber := by
  refine ⟨?_, rfl, by decide⟩
  intro vc sk
  have hv : ed25519Verify (pkOf sk) (encodeClaims vc.jwtClaims)
      (ed25519Sign sk (encodeClaims vc.jwtClaims)) = true := by
    simp [ed25519Verify, ed25519Sign]
  simp [parseCredentialJWS, marshalJWS, hv]
  rfl

/-- Standard base64 alphabet. -/
def base64Table : List Char :=
  "ABCDEFGHIJKLMNOPQRSTUVWXYZabcdefghijklmnopqrstuvwxyz0123456789+/".data

/-- Character of the base64 alphabet at a six-bit index. -/
def b64c (n : Nat) : Char := base64Table.getD n 'A'

/-- Standard base64 encoding of a byte list (model of Go
encoding/base64.StdEncoding.EncodeToString): three-byte groups become four characters,
with "=" padding for one- or two-byte remainders. -/
def base64EncodeBytes : List Nat → List Char
  | [] => []
  | [a] => [b64c (a / 4), b64c ((a % 4) * 16), '=', '=']
  | [a, b] => [b64c (a / 4), b64c ((a % 4) * 16 + b / 16), b64c ((b % 16) * 4), '=']
  | a :: b :: e :: rest =>
    b64c (a / 4) :: b64c ((a % 4) * 16 + b / 16) :: b64c ((b % 16) * 4 + e / 64)
      :: b64c (e % 64) :: base64EncodeBytes rest

/-- Base64 encoding of a byte list as a string. -/
def base64Encode (bytes : List Nat) : String := String.mk (base64EncodeBytes bytes)

/-- Byte content of an ASCII string. -/
def strBytes (s : String) : List Nat := s.data.map Char.toNat

/-- Modelled from the spec: §3 RevealDocument — one reveal node: the explicit flag with
the explicitly enumerated child fields to retain. -/
structure RevealNode where
  explicitFlag : Bool
  fields : List String

/-- Modelled from the spec: §4.6 steps 2-4 — under a node carrying the explicit flag only
the enumerated child fields are retained, together with the mandatory id and type
statement fields; without the flag the subject is retained wholesale. -/
def deriveSubject (subject : List (String × String)) (node : RevealNode) :
    List (String × String) :=
  if node.explicitFlag then
    subject.filter (fun kv => node.fields.contains kv.1 || kv.1 == "id" || kv.1 == "type")
  else subject

/-- Modelled from the spec: §4.6 steps 4-5 — the derived proof has type
"BbsBlsSignatureProof2020" and carries the base64-encoded nonce alongside the derived
proof value; created, purpose and verification method come from the source proof. -/
def deriveBBSProof (srcProof : Proof) (nonce : List Nat) (derivedValue : String) : Proof :=
  { typ := "BbsBlsSignatureProof2020"
  , created := srcProof.created
  , proofPurpose := srcProof.proofPurpose
  , verificationMethod := srcProof.verificationMethod
  , jws := ""
  , proofValue := derivedValue
  , nonce := base64Encode nonce }

/-- Credential subject of the permanent-resident-card example, in document order. -/
def prcSubject : List (String × String) :=
  [ ("id", "did:example:b34ca6cd37bbf23")
  , ("type", "PermanentResident,Person")
  , ("givenName", "JOHN")
  , ("familyName", "SMITH")
  , ("gender", "Male")
  , ("image", "data:image/png;base64,iVBORw0KGgokJggg==")
  , ("residentSince", "2015-01-01")
  , ("lprCategory", "C09")
  , ("lprNumber", "999-999-999")
  , ("commuterClassification", "C1")
  , ("birthCountry", "Bahamas")
  , ("birthDate", "1958-07-17") ]

/-- Reveal node of the example: explicit, retaining givenName, familyName and gender. -/
def prcReveal : RevealNode :=
  { explicitFlag := true, fields := ["givenName", "familyName", "gender"] }

/-- BBS+ source proof of the example. -/
def prcSrcProof : Proof :=
  { typ := "BbsBlsSignature2020"
  , created := some "2010-01-01T19:23:24Z"
  , proofPurpose := "assertionMethod"
  , verificationMethod := "did:example:123456#key1"
  , jws := ""
  , proofValue := "original-bbs-signature"
  , nonce := "" }

/-- C6: selective disclosure correctness — with only givenName, familyName and gender
explicit under credentialSubject, the derived subject holds exactly those three fields
plus the mandatory id and type fields, omitting birthDate, lprNumber, image and every
other field; the derived proof has type "BbsBlsSignatureProof2020" and carries the nonce
"some nonce" base64-encoded as "c29tZSBub25jZQ==" alongside the proof value. -/
theorem bbs_selective_disclosure :
    (deriveSubject prcSubject prcReveal).map Prod.fst
        = ["id", "type", "givenName", "familyName", "gender"]
    ∧ ("birthDate" ∉ (deriveSubject prcSubject prcReveal).map Prod.fst
        ∧ "lprNumber" ∉ (deriveSubject prcSubject prcReveal).map Prod.fst
        ∧ "image" ∉ (deriveSubject prcSubject prcReveal).map Prod.fst)
    ∧ (deriveBBSProof prcSrcProof (strBytes "some nonce") "derived-proof-value").typ
        = "BbsBlsSignatureProof2020"
    ∧ (deriveBBSProof prcSrcProof (strBytes "some nonce") "derived-proof-value").nonce
        = "c29tZSBub25jZQ=="
    ∧ (deriveBBSProof prcSrcProof (strBytes "some nonce") "derived-proof-value").proofValue
        = "derived-proof-value" := by
  refine ⟨rfl, ⟨by decide, by decide, by decide⟩, rfl, rfl, rfl⟩
